import Mathlib

/-!
Verification of the home-services dashboard (`src/main.rs`).

Shallow embedding conventions:
* The TOML text-to-table step is the external `toml` library (the spec excludes
  the descriptor syntax as an external collaborator), so descriptor parsing is
  embedded starting from its outcome: either a structurally invalid document or
  a parsed top-level table of key/value pairs.  The serde-derived
  `Deserialize` impl for `struct Service { name, url, desc }` (all `String`,
  no rename, unknown fields ignored, missing fields are errors) is embedded
  as `serviceFromToml`.
* Filesystem effects are passed in explicitly: a directory enumeration is a
  list of items (each either a `next_entry` error or an entry whose read and
  library-parse outcome is recorded), `read_dir` failure is `Option.none`,
  and the `OnceLock` configuration path is an `Option String`.
* The two HTML template files (`error.template.html`,
  `index.template.html`) are not present under `src/`; they are modelled
  from the spec (see the doc comments on `err` and `renderIndexTemplate`).
* Literal braces and apostrophes inside strings are written with `\x7b`,
  `\x7d` and `\x27` escapes.
-/

namespace HomeServices

/-- A value in a parsed TOML table: a string, or some non-string value
(integer, table, array, ...), which serde rejects for a `String` field. -/
inductive TomlValue
  | str (s : String)
  | nonStr
  deriving DecidableEq, Repr

/-- A parsed top-level TOML table: the key/value pairs, in document order. -/
abbrev TomlTable := List (String × TomlValue)

/-- Outcome of running the external TOML parser on a file's text:
either structurally invalid text, or a parsed top-level table. -/
inductive TomlDoc
  | malformed
  | parsed (t : TomlTable)
  deriving DecidableEq, Repr

/-- `struct Service { name: String, url: String, desc: String }`
(`src/main.rs:183-188`). -/
structure Service where
  name : String
  url : String
  desc : String
  deriving DecidableEq, Repr

/-- `struct Services { services: Vec<Service> }` (`src/main.rs:166-170`). -/
structure Services where
  services : List Service
  deriving DecidableEq, Repr

instance : Inhabited Services := ⟨⟨[]⟩⟩

/-- `Services::default()`: an empty vector of services. -/
def Services.default : Services := ⟨[]⟩

/-- First binding of key `k` in a parsed TOML table (TOML rejects duplicate
keys at parse time, so at most one binding exists in a `parsed` table). -/
def findField (k : String) : TomlTable → Option TomlValue
  | [] => Option.none
  | (k₂, v) :: rest => if k₂ = k then Option.some v else findField k rest

/-- serde field access for a `String` field named `k`: missing field or a
non-string value is a deserialization error. -/
def getStrField (k : String) (t : TomlTable) : Except String String :=
  match findField k t with
  | Option.none => Except.error ("missing field " ++ k)
  | Option.some (TomlValue.str s) => Except.ok s
  | Option.some TomlValue.nonStr => Except.error ("invalid type for field " ++ k)

/-- The serde-derived `Deserialize` for `Service` applied to a TOML document
(`toml::from_str::<Service>`, as invoked at `src/main.rs:115`): structurally
invalid text is an error; otherwise the fields `name`, `url`, `desc` must be
present with string values; unknown fields are ignored; no further
validation (in particular, no non-emptiness check) is performed. -/
def serviceFromToml : TomlDoc → Except String Service
  | TomlDoc.malformed => Except.error ("TOML parse error")
  | TomlDoc.parsed t =>
      match getStrField ("name") t with
      | Except.error e => Except.error e
      | Except.ok name =>
          match getStrField ("url") t with
          | Except.error e => Except.error e
          | Except.ok url =>
              match getStrField ("desc") t with
              | Except.error e => Except.error e
              | Except.ok desc => Except.ok ⟨name, url, desc⟩

/-- The read-and-parse outcome for one directory entry, as consumed by
`read_single_cfg`: `Option.none` models `read_to_string` failing, `some doc`
models the file's text together with the TOML library's parse of it. -/
abbrev EntryRead := Option TomlDoc

/-- `read_single_cfg` (`src/main.rs:110-121`): a read error yields `None`
(after a warning), a parse error yields `None` (after warnings), success
yields the deserialized `Service`. -/
def read_single_cfg (r : EntryRead) : Option Service :=
  match r with
  | Option.none => Option.none
  | Option.some doc => (serviceFromToml doc).toOption

/-- One item produced by the `next_entry` loop in `read_all_cfg_files`:
either an `Err(e)` from `next_entry` (logged and skipped via `continue`) or an
entry, carrying what `read_single_cfg` will observe for it. -/
inductive DirItem
  | entry (r : EntryRead)
  | enumErr
  deriving DecidableEq, Repr

/-- The service contributed by one enumeration item: enumeration errors
contribute nothing, entries contribute whatever `read_single_cfg` yields. -/
def DirItem.service : DirItem → Option Service
  | DirItem.entry r => read_single_cfg r
  | DirItem.enumErr => Option.none

/-- The entry-processing loop of `read_all_cfg_files`
(`src/main.rs:94-107`): each successfully parsed entry is pushed onto
`services.services`, in enumeration order; failures are skipped. -/
def read_all_cfg_loop (items : List DirItem) (services : Services) : Services :=
  match items with
  | [] => services
  | DirItem.enumErr :: rest => read_all_cfg_loop rest services
  | DirItem.entry r :: rest =>
      match read_single_cfg r with
      | Option.none => read_all_cfg_loop rest services
      | Option.some s => read_all_cfg_loop rest ⟨services.services ++ [s]⟩

/-- `read_all_cfg_files` (`src/main.rs:83-108`): `listing = none` models
`tokio::fs::read_dir` failing, in which case a warning is logged and the
function returns with `services` untouched; otherwise the enumeration items
are processed by the loop. -/
def read_all_cfg_files (listing : Option (List DirItem)) (services : Services) : Services :=
  match listing with
  | Option.none => services
  | Option.some items => read_all_cfg_loop items services

/-- `read_cfg` (`src/main.rs:68-81`).  `cfgPath` is the `CFG_PATH` once-lock
content; `pathExists` is `path.exists()`; `createResult` is the outcome of
`tokio::fs::create_dir` (only consulted when the path does not exist);
`listing` is the directory enumeration (only consulted when it does). -/
def read_cfg (cfgPath : Option String) (pathExists : Bool)
    (createResult : Except String Unit) (listing : Option (List DirItem)) :
    Except String Services :=
  match cfgPath with
  | Option.none => Except.error ("CFG_PATH is unset!")
  | Option.some _ =>
      if pathExists then
        Except.ok (read_all_cfg_files listing Services.default)
      else
        match createResult with
        | Except.error e => Except.error ("Error creating cfg dir: " ++ e)
        | Except.ok _ => Except.ok Services.default

/-- `type ResponsePair = (StatusCode, Html<String>)` (`src/main.rs:26`),
with the status code as a `Nat` and the HTML body as a `String`. -/
abbrev ResponsePair := Nat × String

/-- Modelled from the spec: `src/error.template.html` is included with
`include_str!` but absent from `src/`.  Per the spec, the error page
carries a context string and the underlying cause's text, so the template
carries the two substitution markers used by `err`. -/
def ERROR_HTML_TEMPLATE_PRE : String :=
  "<html><body><h1>error</h1><p>"

/-- Modelled from the spec: the template text between the context marker and
the cause marker of `error.template.html`. -/
def ERROR_HTML_TEMPLATE_MID : String :=
  "</p><p>"

/-- Modelled from the spec: the template text after the cause marker of
`error.template.html`. -/
def ERROR_HTML_TEMPLATE_POST : String :=
  "</p></body></html>"

/-- `err` (`src/main.rs:123-133`): a 500 response whose body is the error
template with the context substituted for `\x7b\x7bcontext\x7d\x7d` and the
cause for `\x7b\x7be\x7d\x7d`.  The code's first `replace` pattern
(`"\x7b\x7bcontext\x7d"`) is one closing brace short of the marker, so the
substitution leaves a stray `\x7d` after the context text; the context and
cause texts are embedded either way. -/
def err (e : String) (context : String) : ResponsePair :=
  (500,
    ERROR_HTML_TEMPLATE_PRE ++ context ++ ("\x7d") ++ ERROR_HTML_TEMPLATE_MID
      ++ e ++ ERROR_HTML_TEMPLATE_POST)

/-- `Service::as_html` (`src/main.rs:190-197`): interpolates `url` (inside
the `onclick` attribute), `name` and `desc` verbatim into the article
fragment; no escaping of any kind. -/
def Service.as_html (s : Service) : String :=
  "<article class=\"service-entry\" onclick=\"goto(\x27" ++ s.url
    ++ "\x27)\"><h2>" ++ s.name ++ "</h2><span>" ++ s.desc
    ++ "</span></article>"

/-- `Vec::join("")` on a list of strings: plain concatenation in order. -/
def joinAll : List String → String
  | [] => ""
  | s :: rest => s ++ joinAll rest

/-- `Services::as_html` (`src/main.rs:172-181`): each service's fragment is
wrapped in `<li>...</li>` and the fragments are concatenated in registry
order with an empty joiner. -/
def Services.as_html (ss : Services) : String :=
  joinAll (ss.services.map (fun s => "<li>" ++ s.as_html ++ "</li>"))

/-- Modelled from the spec: `src/index.template.html` is included with
`include_str!` but absent from `src/`; the spec describes page assembly as
string templating with a single list-substitution point, so the template is
a fixed prefix, the `\x7b\x7bservices-list\x7d\x7d` marker once, and a fixed
suffix, and `replace` substitutes the rendered list at that point. -/
def INDEX_HTML_TEMPLATE_PRE : String :=
  "<html><body><h1>home services</h1><ul>"

/-- Modelled from the spec: the index template text after the
list-substitution marker. -/
def INDEX_HTML_TEMPLATE_POST : String :=
  "</ul></body></html>"

/-- `INDEX_HTML_TEMPLATE.replace("\x7b\x7bservices-list\x7d\x7d", servicesHtml)`
(`src/main.rs:64`), over the modelled template. -/
def renderIndexTemplate (servicesHtml : String) : String :=
  INDEX_HTML_TEMPLATE_PRE ++ servicesHtml ++ INDEX_HTML_TEMPLATE_POST

/-- `index` (`src/main.rs:60-66`): a `read_cfg` failure becomes
`err(e, "reading cfg")`; success renders the registry into the index
template with a 200 status. -/
def index (cfgPath : Option String) (pathExists : Bool)
    (createResult : Except String Unit) (listing : Option (List DirItem)) :
    Except ResponsePair ResponsePair :=
  match read_cfg cfgPath pathExists createResult listing with
  | Except.error e => Except.error (err e ("reading cfg"))
  | Except.ok cfg => Except.ok (200, renderIndexTemplate cfg.as_html)

/-- One item of the inotify event stream (`Result<Event, Error>` in
`into_event_stream`'s output): an OS event with its kind and payload, or a
stream error. -/
inductive RawEvent
  | ok (kind : String) (payload : String)
  | ioErr (e : String)
  deriving DecidableEq, Repr

/-- Outcome of the `sse` handler: a panic (from `.unwrap()`), an error
response returned before any stream is opened, or an established
server-push stream of data frames with the default keep-alive attached. -/
inductive SseOutcome
  | panicked (msg : String)
  | errResponse (r : ResponsePair)
  | stream (frames : List String) (keepAlive : Bool)
  deriving DecidableEq, Repr

/-- `sse` (`src/main.rs:135-164`).  `initResult` is `Inotify::init()`,
`addResult` is `watches().add(..)`, `streamResult` is
`into_event_stream(buf)`; `rawEvents` are the items the established event
stream will produce.  `CFG_PATH.get().unwrap()` is evaluated after a
successful init and panics when the once-lock is unset.  Each failure is
turned into an error response via `err` with its context string, before any
stream exists.  On success every raw stream item, error items included, is
mapped to a data frame with the literal payload `"update"`. -/
def sse (cfgPath : Option String) (initResult : Except String Unit)
    (addResult : Except String Unit) (streamResult : Except String Unit)
    (rawEvents : List RawEvent) : SseOutcome :=
  match initResult with
  | Except.error e => SseOutcome.errResponse (err e ("setting up inotify"))
  | Except.ok _ =>
      match cfgPath with
      | Option.none => SseOutcome.panicked ("called Option::unwrap on a None value")
      | Option.some _ =>
          match addResult with
          | Except.error e =>
              SseOutcome.errResponse (err e ("setting up inotify for cfg path"))
          | Except.ok _ =>
              match streamResult with
              | Except.error e =>
                  SseOutcome.errResponse (err e ("watcher into event stream"))
              | Except.ok _ =>
                  SseOutcome.stream (rawEvents.map (fun _ => "update")) true

/-- `needle` occurs verbatim (contiguously, unmodified) inside `hay`. -/
def StrContains (hay needle : String) : Prop :=
  ∃ a b, hay = a ++ needle ++ b

/-! ## Helper lemmas -/

theorem strContains_self (s : String) : StrContains s s :=
  ⟨"", "", by rw [String.empty_append, String.append_empty]⟩

theorem strContains_append_left (x y n : String) (h : StrContains x n) :
    StrContains (x ++ y) n := by
  obtain ⟨a, b, hab⟩ := h
  exact ⟨a, b ++ y, by rw [hab]; simp [String.append_assoc]⟩

theorem strContains_append_right (x y n : String) (h : StrContains y n) :
    StrContains (x ++ y) n := by
  obtain ⟨a, b, hab⟩ := h
  exact ⟨x ++ a, b, by rw [hab]; simp [String.append_assoc]⟩

theorem strContains_trans (h₁ m n : String) (hm : StrContains h₁ m)
    (hn : StrContains m n) : StrContains h₁ n := by
  obtain ⟨a, b, hab⟩ := hm
  obtain ⟨c, d, hcd⟩ := hn
  exact ⟨a ++ c, d ++ b, by rw [hab, hcd]; simp [String.append_assoc]⟩

theorem joinAll_contains {l : List String} {s : String} (h : s ∈ l) :
    StrContains (joinAll l) s := by
  induction l with
  | nil => cases h
  | cons t rest ih =>
      cases h with
      | head => exact strContains_append_left _ (joinAll rest) _ (strContains_self _)
      | tail _ hmem =>
          exact strContains_append_right t (joinAll rest) s (ih hmem)

theorem read_all_cfg_loop_spec (items : List DirItem) (init : List Service) :
    (read_all_cfg_loop items ⟨init⟩).services = init ++ items.filterMap DirItem.service := by
  induction items generalizing init with
  | nil => simp [read_all_cfg_loop]
  | cons it rest ih =>
      cases it with
      | enumErr => simp [read_all_cfg_loop, DirItem.service, ih]
      | entry r =>
          cases hr : read_single_cfg r with
          | none => simp [read_all_cfg_loop, DirItem.service, hr, ih]
          | some s => simp [read_all_cfg_loop, DirItem.service, hr, ih]

/-! ## The claims -/

/-- C1 (counterexample): a descriptor whose parsed table binds the keys
`name`, `url` and `description` does not deserialize into a `Service` —
the struct field is `desc`, not `description`, so the `description` binding
is an ignored unknown field and the required field `desc` is missing;
`read_single_cfg` therefore yields no record for such a file. -/
theorem C1_counterexample :
    serviceFromToml (TomlDoc.parsed
      [(("name"), TomlValue.str ("A")), (("url"), TomlValue.str ("http://x")),
        (("description"), TomlValue.str ("d"))])
      = Except.error ("missing field desc")
    ∧ read_single_cfg (Option.some (TomlDoc.parsed
      [(("name"), TomlValue.str ("A")), (("url"), TomlValue.str ("http://x")),
        (("description"), TomlValue.str ("d"))])) = Option.none := by
  constructor <;> rfl

/-- C1 (amended): the round trip holds with the struct's actual third field
name `desc`: a descriptor whose parsed table binds `name`, `url` and `desc`
to any string values deserializes into exactly those three values,
unmodified, and `read_single_cfg` yields exactly that record. -/
theorem C1_roundtrip_desc_field (a x d : String) :
    serviceFromToml (TomlDoc.parsed
      [(("name"), TomlValue.str a), (("url"), TomlValue.str x),
        (("desc"), TomlValue.str d)])
      = Except.ok ⟨a, x, d⟩
    ∧ read_single_cfg (Option.some (TomlDoc.parsed
      [(("name"), TomlValue.str a), (("url"), TomlValue.str x),
        (("desc"), TomlValue.str d)])) = Option.some ⟨a, x, d⟩ := by
  constructor <;> rfl

/-- C2 (counterexample): the parser performs no non-emptiness validation —
a descriptor with all three required fields present but bound to the empty
string deserializes successfully into a record of empty strings, rather
than producing a failure as the claim states. -/
theorem C2_counterexample :
    serviceFromToml (TomlDoc.parsed
      [(("name"), TomlValue.str ("")), (("url"), TomlValue.str ("")),
        (("desc"), TomlValue.str (""))])
      = Except.ok ⟨("" : String), ("" : String), ("" : String)⟩
    ∧ read_single_cfg (Option.some (TomlDoc.parsed
      [(("name"), TomlValue.str ("")), (("url"), TomlValue.str ("")),
        (("desc"), TomlValue.str (""))]))
      = Option.some ⟨("" : String), ("" : String), ("" : String)⟩ := by
  constructor <;> rfl

/-- C2 (amended): a record is produced only when each of the required
fields `name`, `url`, `desc` is present with a string value (so a missing
required field yields a single failure, not a record), and structurally
invalid text yields a single failure; empty string values are accepted. -/
theorem C2_required_fields_present (t : TomlTable) (s : Service)
    (h : serviceFromToml (TomlDoc.parsed t) = Except.ok s) :
    findField ("name") t = Option.some (TomlValue.str s.name)
    ∧ findField ("url") t = Option.some (TomlValue.str s.url)
    ∧ findField ("desc") t = Option.some (TomlValue.str s.desc)
    ∧ serviceFromToml TomlDoc.malformed = Except.error ("TOML parse error") := by
  cases hn : findField ("name") t with
  | none => simp [serviceFromToml, getStrField, hn] at h
  | some vn =>
      cases vn with
      | nonStr => simp [serviceFromToml, getStrField, hn] at h
      | str nv =>
          cases hu : findField ("url") t with
          | none => simp [serviceFromToml, getStrField, hn, hu] at h
          | some vu =>
              cases vu with
              | nonStr => simp [serviceFromToml, getStrField, hn, hu] at h
              | str uv =>
                  cases hd : findField ("desc") t with
                  | none => simp [serviceFromToml, getStrField, hn, hu, hd] at h
                  | some vd =>
                      cases vd with
                      | nonStr => simp [serviceFromToml, getStrField, hn, hu, hd] at h
                      | str dv =>
                          simp [serviceFromToml, getStrField, hn, hu, hd] at h
                          subst h
                          exact ⟨rfl, rfl, rfl, rfl⟩

/-- C2 (witness): the amended theorem applied to a concrete table holding
all three required fields. -/
theorem C2_required_fields_witness :
    findField ("name") [(("name"), TomlValue.str ("a")), (("url"), TomlValue.str ("b")),
        (("desc"), TomlValue.str ("c"))]
      = Option.some (TomlValue.str ("a"))
    ∧ findField ("url") [(("name"), TomlValue.str ("a")), (("url"), TomlValue.str ("b")),
        (("desc"), TomlValue.str ("c"))]
      = Option.some (TomlValue.str ("b"))
    ∧ findField ("desc") [(("name"), TomlValue.str ("a")), (("url"), TomlValue.str ("b")),
        (("desc"), TomlValue.str ("c"))]
      = Option.some (TomlValue.str ("c"))
    ∧ serviceFromToml TomlDoc.malformed = Except.error ("TOML parse error") :=
  C2_required_fields_present
    [(("name"), TomlValue.str ("a")), (("url"), TomlValue.str ("b")),
      (("desc"), TomlValue.str ("c"))]
    ⟨("a"), ("b"), ("c")⟩ (by rfl)

/-- C3: for every directory scan, the registry produced by
`read_all_cfg_files` is exactly the initial contents followed by, for each
enumeration item in order, the service it parsed to — so entries whose
read, parse or enumeration failed contribute nothing, and each successfully
parsed file contributes exactly one record, appended in
directory-enumeration order. -/
theorem C3_registry_exactly_parsed (items : List DirItem) (init : List Service) :
    (read_all_cfg_files (Option.some items) ⟨init⟩).services
      = init ++ items.filterMap DirItem.service
    ∧ (read_all_cfg_files (Option.some items) Services.default).services
      = items.filterMap DirItem.service := by
  refine ⟨read_all_cfg_loop_spec items init, ?_⟩
  simpa using read_all_cfg_loop_spec items []

/-- C4: when the configured directory exists but cannot be enumerated
(`read_dir` fails, modelled by `listing = none`), `read_cfg` still succeeds
with an empty registry and the index handler returns a 200 page, for any
creation outcome (creation is not even attempted). -/
theorem C4_read_dir_failure_best_effort (p : String)
    (createResult : Except String Unit) :
    read_cfg (Option.some p) true createResult Option.none
      = Except.ok Services.default
    ∧ index (Option.some p) true createResult Option.none
      = Except.ok (200, renderIndexTemplate (Services.as_html Services.default))
    ∧ Services.default.services = [] := by
  exact ⟨rfl, rfl, rfl⟩

/-- C5: when the configured directory does not exist and its creation
succeeds, `read_cfg` returns the empty registry and the index handler
returns a 200 page whose list-substitution point receives the empty string
(zero rendered entries), regardless of any directory listing. -/
theorem C5_auto_create_empty (p : String) (listing : Option (List DirItem)) :
    read_cfg (Option.some p) false (Except.ok ()) listing = Except.ok Services.default
    ∧ index (Option.some p) false (Except.ok ()) listing
      = Except.ok (200, renderIndexTemplate (""))
    ∧ Services.as_html Services.default = ("") := by
  exact ⟨rfl, rfl, rfl⟩

/-- C6: `err` always produces status 500 with a body containing both the
context string and the cause text verbatim; a failed directory creation
makes `index` return exactly such a response (context `reading cfg`, cause
embedding the creation error), and an inotify initialization or watch
attachment failure makes `sse` return exactly such a response, with no
stream opened. -/
theorem C6_infrastructure_errors (e context p : String)
    (addResult streamResult : Except String Unit) (ev : List RawEvent)
    (listing : Option (List DirItem)) :
    (err e context).1 = 500
    ∧ StrContains (err e context).2 context
    ∧ StrContains (err e context).2 e
    ∧ index (Option.some p) false (Except.error e) listing
      = Except.error (err (("Error creating cfg dir: ") ++ e) ("reading cfg"))
    ∧ StrContains (err (("Error creating cfg dir: ") ++ e) ("reading cfg")).2 e
    ∧ sse (Option.some p) (Except.error e) addResult streamResult ev
      = SseOutcome.errResponse (err e ("setting up inotify"))
    ∧ sse (Option.some p) (Except.ok ()) (Except.error e) streamResult ev
      = SseOutcome.errResponse (err e ("setting up inotify for cfg path")) := by
  refine ⟨rfl, ?_, ?_, rfl, ?_, rfl, rfl⟩
  · exact ⟨ERROR_HTML_TEMPLATE_PRE,
      ("\x7d") ++ ERROR_HTML_TEMPLATE_MID ++ e ++ ERROR_HTML_TEMPLATE_POST,
      by simp [err, String.append_assoc]⟩
  · exact ⟨ERROR_HTML_TEMPLATE_PRE ++ context ++ ("\x7d") ++ ERROR_HTML_TEMPLATE_MID,
      ERROR_HTML_TEMPLATE_POST, by simp [err, String.append_assoc]⟩
  · exact ⟨ERROR_HTML_TEMPLATE_PRE ++ ("reading cfg") ++ ("\x7d")
        ++ ERROR_HTML_TEMPLATE_MID ++ ("Error creating cfg dir: "),
      ERROR_HTML_TEMPLATE_POST, by simp [err, String.append_assoc]⟩

/-- C7: with a successfully established watch, the push stream emits
exactly one frame per raw watcher stream item, and every emitted frame
carries the fixed literal payload `update`, regardless of the item's kind
or payload. -/
theorem C7_update_per_event (p : String) (ev : List RawEvent) :
    sse (Option.some p) (Except.ok ()) (Except.ok ()) (Except.ok ()) ev
      = SseOutcome.stream (ev.map (fun _ => ("update"))) true
    ∧ (ev.map (fun (_ : RawEvent) => ("update" : String))).length = ev.length
    ∧ (∀ f ∈ ev.map (fun (_ : RawEvent) => ("update" : String)), f = ("update")) := by
  refine ⟨rfl, List.length_map _ _, ?_⟩
  intro f hf
  rcases List.mem_map.mp hf with ⟨a, _, rfl⟩
  rfl

/-- C8 (counterexample): an error item of the watcher stream does not end
the push stream — it is converted into an ordinary `update` data frame, and
frames for later items are still emitted. -/
theorem C8_counterexample :
    sse (Option.some ("cfg")) (Except.ok ()) (Except.ok ()) (Except.ok ())
      [RawEvent.ioErr ("boom"), RawEvent.ok ("modify") ("a.toml")]
      = SseOutcome.stream [("update"), ("update")] true := by
  rfl

/-- C8 (amended): the handler maps every item of the watcher stream, error
items included, to an `update` data frame; a watcher error therefore does
not terminate the stream (the mapped stream's error type is `Infallible`),
and items after the error still produce frames. -/
theorem C8_errors_mapped_to_updates (p e : String) (pre post : List RawEvent) :
    sse (Option.some p) (Except.ok ()) (Except.ok ()) (Except.ok ())
      (pre ++ RawEvent.ioErr e :: post)
      = SseOutcome.stream
        ((pre.map (fun _ => ("update"))) ++ ("update") :: (post.map (fun _ => ("update"))))
        true := by
  simp [sse]

/-- C9 (counterexample): an unset `CFG_PATH` is not treated as fatal on the
page-load path: `read_cfg` recovers by returning an ordinary error value,
which `index` turns into a plain 500 error response rather than a panic. -/
theorem C9_counterexample :
    read_cfg Option.none true (Except.ok ()) Option.none
      = Except.error ("CFG_PATH is unset!")
    ∧ index Option.none true (Except.ok ()) Option.none
      = Except.error (err ("CFG_PATH is unset!") ("reading cfg"))
    ∧ (err ("CFG_PATH is unset!") ("reading cfg")).1 = 500 := by
  exact ⟨rfl, rfl, rfl⟩

/-- C9 (amended): only the watch-setup path treats an unset `CFG_PATH` as a
fatal programming fault (`unwrap` panics after a successful inotify init);
the page-load path recovers, `read_cfg` returning an ordinary error that
`index` surfaces as a 500 error response. -/
theorem C9_unset_path_split (addResult streamResult : Except String Unit)
    (ev : List RawEvent) (pathExists : Bool)
    (createResult : Except String Unit) (listing : Option (List DirItem)) :
    sse Option.none (Except.ok ()) addResult streamResult ev
      = SseOutcome.panicked ("called Option::unwrap on a None value")
    ∧ read_cfg Option.none pathExists createResult listing
      = Except.error ("CFG_PATH is unset!")
    ∧ index Option.none pathExists createResult listing
      = Except.error (err ("CFG_PATH is unset!") ("reading cfg")) := by
  exact ⟨rfl, rfl, rfl⟩

/-- C10: the HTML rendering escapes nothing — each rendered service
fragment contains the record's `name`, `url` (inside the `onclick`
attribute) and `desc` verbatim, and for every record of a loaded registry
the 200 page body returned by `index` contains those field values verbatim,
markup and script text included. -/
theorem C10_no_escaping (sv : Service) (p : String) (items : List DirItem)
    (hmem : sv ∈ (read_all_cfg_files (Option.some items) Services.default).services) :
    StrContains sv.as_html sv.name
    ∧ StrContains sv.as_html sv.url
    ∧ StrContains sv.as_html sv.desc
    ∧ ∃ body,
        index (Option.some p) true (Except.ok ()) (Option.some items)
          = Except.ok (200, body)
        ∧ StrContains body sv.name ∧ StrContains body sv.url ∧ StrContains body sv.desc := by
  have hname : StrContains sv.as_html sv.name := by
    refine ⟨("<article class=\"service-entry\" onclick=\"goto(\x27") ++ sv.url
        ++ ("\x27)\"><h2>"),
      ("</h2><span>") ++ sv.desc ++ ("</span></article>"), ?_⟩
    simp [Service.as_html, String.append_assoc]
  have hurl : StrContains sv.as_html sv.url := by
    refine ⟨("<article class=\"service-entry\" onclick=\"goto(\x27"),
      ("\x27)\"><h2>") ++ sv.name ++ ("</h2><span>") ++ sv.desc
        ++ ("</span></article>"), ?_⟩
    simp [Service.as_html, String.append_assoc]
  have hdesc : StrContains sv.as_html sv.desc := by
    refine ⟨("<article class=\"service-entry\" onclick=\"goto(\x27") ++ sv.url
        ++ ("\x27)\"><h2>") ++ sv.name ++ ("</h2><span>"),
      ("</span></article>"), ?_⟩
    simp [Service.as_html, String.append_assoc]
  refine ⟨hname, hurl, hdesc, ?_⟩
  refine ⟨renderIndexTemplate
    (Services.as_html (read_all_cfg_files (Option.some items) Services.default)), rfl, ?_⟩
  have hfrag : StrContains
      (Services.as_html (read_all_cfg_files (Option.some items) Services.default))
      sv.as_html := by
    have hwrap : (("<li>") ++ sv.as_html ++ ("</li>")) ∈
        (read_all_cfg_files (Option.some items) Services.default).services.map
          (fun s => ("<li>") ++ s.as_html ++ ("</li>")) :=
      List.mem_map.mpr ⟨sv, hmem, rfl⟩
    have hj := joinAll_contains hwrap
    exact strContains_trans _ _ _ hj
      ⟨("<li>"), ("</li>"), rfl⟩
  have hbody : ∀ n : String, StrContains sv.as_html n →
      StrContains (renderIndexTemplate
        (Services.as_html (read_all_cfg_files (Option.some items) Services.default))) n := by
    intro n hn
    have h₁ := strContains_trans _ _ _ hfrag hn
    have h₂ := strContains_append_right INDEX_HTML_TEMPLATE_PRE
      (Services.as_html (read_all_cfg_files (Option.some items) Services.default)) n h₁
    have h₃ := strContains_append_left
      (INDEX_HTML_TEMPLATE_PRE
        ++ Services.as_html (read_all_cfg_files (Option.some items) Services.default))
      INDEX_HTML_TEMPLATE_POST n h₂
    exact h₃
  exact ⟨hbody sv.name hname, hbody sv.url hurl, hbody sv.desc hdesc⟩

/-- C10 (witness): the theorem applied to a concrete one-file listing whose
record holds script markup in its `name`. -/
theorem C10_no_escaping_witness :
    StrContains (Service.as_html ⟨("<script>alert(1)</script>"), ("x"), ("d")⟩)
      ("<script>alert(1)</script>")
    ∧ StrContains (Service.as_html ⟨("<script>alert(1)</script>"), ("x"), ("d")⟩) ("x")
    ∧ StrContains (Service.as_html ⟨("<script>alert(1)</script>"), ("x"), ("d")⟩) ("d")
    ∧ ∃ body,
        index (Option.some ("cfg")) true (Except.ok ())
          (Option.some [DirItem.entry (Option.some (TomlDoc.parsed
            [(("name"), TomlValue.str ("<script>alert(1)</script>")),
              (("url"), TomlValue.str ("x")), (("desc"), TomlValue.str ("d"))]))])
          = Except.ok (200, body)
        ∧ StrContains body ("<script>alert(1)</script>")
        ∧ StrContains body ("x") ∧ StrContains body ("d") :=
  C10_no_escaping ⟨("<script>alert(1)</script>"), ("x"), ("d")⟩ ("cfg")
    [DirItem.entry (Option.some (TomlDoc.parsed
      [(("name"), TomlValue.str ("<script>alert(1)</script>")),
        (("url"), TomlValue.str ("x")), (("desc"), TomlValue.str ("d"))]))]
    (by simp [read_all_cfg_files, read_all_cfg_loop, read_single_cfg, serviceFromToml,
      getStrField, findField, Services.default, Except.toOption])

end HomeServices
